import Mathlib

/-!
Verification of the EZ-Coach training-module core (Python) against its
natural-language specification.  Shallow embedding: each Lean definition
translates one Python function or class of the repository; Python numbers
are modelled as `Rat` (exact arithmetic on the protocol's small numeric
values), fallible code returns `Except`, and the JSON wire format is an
inductive `Json` value type together with a whole-string parser standing
for `json.loads` on the protocol's message grammar.
-/

namespace EZCoach

/-! ### Python errors

Python exceptions raised by the embedded code paths. -/

inductive PyErr where
  | keyError (key : String)
  | typeError
  | valueError (msg : String)
  | attributeError (name : String)
  | assertionError
deriving DecidableEq, Repr

/-! ### Ranges (`ezcoach/range.py`)

`Range.__init__` stores `_min = min(min, max)`, `_max = max(min, max)` but
`_range = max - min` and `_half_range = _range / 2` computed from the raw
operands (range.py lines 72-75).  `_is_int` feeds only `random()`, which is
nondeterministic and outside this embedding. -/

structure RangeObj where
  min : Rat
  max : Rat
  range : Rat
  halfRange : Rat
deriving DecidableEq, Repr

/-- `Range.__init__(min, max)` (range.py lines 65-76). -/
def mkRange (minArg maxArg : Rat) : RangeObj :=
  { min := Min.min minArg maxArg
    max := Max.max minArg maxArg
    range := maxArg - minArg
    halfRange := (maxArg - minArg) / 2 }

/-- `Range.contains` (range.py line 85): `self._min <= value <= self._max`. -/
def RangeObj.containsNum (r : RangeObj) (value : Rat) : Bool :=
  decide (r.min ≤ value ∧ value ≤ r.max)

/-- `Range.normalize` (range.py lines 100-111). -/
def RangeObj.normalize (r : RangeObj) (value : Rat) (zeroCentered : Bool) : Rat :=
  if zeroCentered then (value - r.min - r.halfRange) / r.halfRange
  else (value - r.min) / r.range

/-- The registered range classes (`@range_definition`): a plain `Range`
instance, the `UnboundRange` singleton, and a `BoolRange` instance.  The
class of the object is part of the value, as in Python. -/
inductive RangeDef where
  | plain (r : RangeObj)
  | unbound
  | boolRange
deriving DecidableEq, Repr

/-- `BoolRange.instance()` (range.py lines 204-213): the body constructs
`UnboundRange()` — not a `BoolRange` — and caches it. -/
def boolRangeInstance : RangeDef := .unbound

/-! ### Runtime Python values and containment

`PyData` models the runtime values offered to `contains` (actions,
state components).  Python `bool` is a subclass of `int` and of
`numbers.Number`, reflected in `isInstanceOf` and `isNumber`. -/

inductive PyData where
  | bool (b : Bool)
  | int (n : Int)
  | float (q : Rat)
  | list (xs : List PyData)
deriving Repr

/-- The three entries of `TypedList.supported_types` (value.py line 126). -/
inductive TypeTag where
  | int
  | float
  | bool
deriving DecidableEq, Repr

/-- Python `isinstance(v, t)` for the supported types; `True` is an
instance of `int` because `bool` subclasses `int`. -/
def isInstanceOf : PyData → TypeTag → Bool
  | .bool _, .int => true
  | .bool _, .bool => true
  | .int _, .int => true
  | .float _, .float => true
  | _, _ => false

/-- Python `isinstance(v, numbers.Number)`. -/
def isNumber : PyData → Bool
  | .list _ => false
  | _ => true

/-- The numeric value of a Python number (`bool` counts as 0 or 1). -/
def PyData.toRat? : PyData → Option Rat
  | .bool b => some (if b then 1 else 0)
  | .int n => some (n : Rat)
  | .float q => some q
  | .list _ => none

/-- `contains` dispatched on the range's class (range.py lines 78-85,
180-181, 231-232).  A plain `Range` compares numerically; the callers in
`value.py` guard with `isinstance` first, so the numeric comparison is
only reached on numbers. -/
def RangeDef.containsVal : RangeDef → PyData → Bool
  | .plain r, v => (v.toRat?).elim false (fun q => r.containsNum q)
  | .unbound, v => isNumber v
  | .boolRange, v => match v with
    | .bool _ => true
    | _ => false

/-! ### JSON values and `json.loads` (`json` module as used by the framer)

`Json` doubles as the wire JSON and the "JSON-like dictionary" built by
`to_json`; `PixelList.to_json` (value.py line 657) stores the raw Python
`Range` object under the `range` key, modelled by the extra constructor
`pyRange`. -/

inductive Json where
  | null
  | bool (b : Bool)
  | num (q : Rat)
  | str (s : String)
  | arr (elems : List Json)
  | obj (members : List (String × Json))
  | pyRange (r : RangeDef)
deriving Repr

/-- Python `d[key]` on a JSON-like dictionary: `KeyError` when the key is
missing, `TypeError` when the subscripted value is not a dictionary. -/
def Json.getItem (j : Json) (key : String) : Except PyErr Json :=
  match j with
  | .obj members =>
    match members.lookup key with
    | some v => .ok v
    | none => .error (.keyError key)
  | _ => .error .typeError

/-- Python `key in d`. -/
def Json.hasKey (j : Json) (key : String) : Bool :=
  match j with
  | .obj members => (members.lookup key).isSome
  | _ => false

/-! `json.loads`: a recursive-descent parser over the character list with
a fuel bound (one unit per nesting level; `length + 1` always suffices).
It covers the protocol's message grammar: objects, arrays, strings
without escape sequences, integers, and the three literals. -/

def skipWs : List Char → List Char
  | c :: cs =>
    if c = ' ' ∨ c = '\n' ∨ c = '\t' ∨ c = '\r' then skipWs cs else c :: cs
  | [] => []

def parseStringBody : List Char → Option (String × List Char)
  | [] => none
  | c :: cs =>
    if c = '"' then some ("", cs)
    else
      match parseStringBody cs with
      | some (s, rest) => some (String.mk (c :: s.data), rest)
      | none => none

def parseNatNum : List Char → Option (Nat × List Char) := fun cs =>
  let digits := cs.takeWhile Char.isDigit
  if digits.isEmpty then none
  else some (digits.foldl (fun acc c => acc * 10 + (c.toNat - '0'.toNat)) 0,
             cs.dropWhile Char.isDigit)

mutual

def parseVal : Nat → List Char → Option (Json × List Char)
  | 0, _ => none
  | fuel + 1, cs =>
    match skipWs cs with
    | [] => none
    | c :: rest =>
      if c = '\x7b' then
        match skipWs rest with
        | '\x7d' :: rest2 => some (.obj [], rest2)
        | rest2 =>
          match parseMembers fuel rest2 with
          | some (ms, rest3) => some (.obj ms, rest3)
          | none => none
      else if c = '[' then
        match skipWs rest with
        | ']' :: rest2 => some (.arr [], rest2)
        | rest2 =>
          match parseElems fuel rest2 with
          | some (es, rest3) => some (.arr es, rest3)
          | none => none
      else if c = '"' then
        match parseStringBody rest with
        | some (s, rest2) => some (.str s, rest2)
        | none => none
      else if c = '-' then
        match parseNatNum rest with
        | some (n, rest2) => some (.num (-(n : Int) : Int), rest2)
        | none => none
      else if c.isDigit then
        match parseNatNum (c :: rest) with
        | some (n, rest2) => some (.num (n : Rat), rest2)
        | none => none
      else if c = 't' then
        match rest with
        | 'r' :: 'u' :: 'e' :: rest2 => some (.bool true, rest2)
        | _ => none
      else if c = 'f' then
        match rest with
        | 'a' :: 'l' :: 's' :: 'e' :: rest2 => some (.bool false, rest2)
        | _ => none
      else if c = 'n' then
        match rest with
        | 'u' :: 'l' :: 'l' :: rest2 => some (.null, rest2)
        | _ => none
      else none

def parseMembers : Nat → List Char → Option (List (String × Json) × List Char)
  | 0, _ => none
  | fuel + 1, cs =>
    match skipWs cs with
    | '"' :: rest =>
      match parseStringBody rest with
      | some (k, rest2) =>
        match skipWs rest2 with
        | ':' :: rest3 =>
          match parseVal fuel rest3 with
          | some (v, rest4) =>
            match skipWs rest4 with
            | ',' :: rest5 =>
              match parseMembers fuel rest5 with
              | some (ms, rest6) => some ((k, v) :: ms, rest6)
              | none => none
            | '\x7d' :: rest5 => some ([(k, v)], rest5)
            | _ => none
          | none => none
        | _ => none
      | none => none
    | _ => none

def parseElems : Nat → List Char → Option (List Json × List Char)
  | 0, _ => none
  | fuel + 1, cs =>
    match parseVal fuel cs with
    | some (v, rest) =>
      match skipWs rest with
      | ',' :: rest2 =>
        match parseElems fuel rest2 with
        | some (es, rest3) => some (v :: es, rest3)
        | none => none
      | ']' :: rest2 => some ([v], rest2)
      | _ => none
    | none => none

end

/-- `json.loads(s)`: parses exactly one JSON value and rejects trailing
data (Python raises `json.decoder.JSONDecodeError`, modelled as `none`). -/
def jsonLoads (s : String) : Option Json :=
  match parseVal (s.length + 1) s.data with
  | some (v, rest) => if skipWs rest = [] then some v else none
  | none => none

/-! ### The framer (`ezcoach/json_utils.py` and
`BaseCommunication.get_messages`, `ezcoach/communication.py`)

`split_jsons` (json_utils.py lines 8-22) splits on the two-character
boundary, then rebuilds the fragments with Python slice assignments.  The
statement `jsons[1:-1] = ['\x7b' + m + '\x7d' for m in jsons[1:-2]]`
replaces the `n - 2` middle elements by the `n - 3` wrapped elements
`jsons[1] .. jsons[n-3]`; the element `jsons[n-2]` is not kept. -/

/-- Python `str.split(sep)` with a non-empty separator: non-overlapping
occurrences, scanned left to right.  Fuel is one unit per consumed
character; `length + 1` always suffices. -/
def pySplitAux (sep : List Char) : Nat → List Char → List Char → List (List Char)
  | 0, acc, cs => [acc.reverse ++ cs]
  | fuel + 1, acc, cs =>
    if sep.isPrefixOf cs ∧ sep ≠ [] then
      acc.reverse :: pySplitAux sep fuel [] (cs.drop sep.length)
    else
      match cs with
      | [] => [acc.reverse]
      | c :: rest => pySplitAux sep fuel (c :: acc) rest

def pySplit (s sep : String) : List String :=
  (pySplitAux sep.data (s.length + 1) [] s.data).map String.mk

def splitJsons (jsonStr : String) : List String :=
  let jsons := pySplit jsonStr "\x7d\x7b"
  match jsons with
  | [] => [jsonStr]
  | [_] => [jsonStr]
  | j0 :: rest =>
    let lastFrag := rest.getLastD ""
    let middle := rest.dropLast
    let kept := middle.dropLast
    ((j0 ++ "\x7d") :: kept.map (fun m => "\x7b" ++ m ++ "\x7d"))
      ++ ["\x7b" ++ lastFrag]

/-- One iteration of the body of `get_messages` (communication.py lines
158-173) on a raw chunk taken from the queue: try `json.loads`; on
failure, prepend the carried residual (`_last_partial_message`), split,
parse each fragment, and remember a failing fragment as the new residual
(each failure overwrites the previous one). -/
def processChunk (residual : Option String) (rawMessage : String) :
    Option String × List Json :=
  match jsonLoads rawMessage with
  | some j => (residual, [j])
  | none =>
    let raw := match residual with
      | some p => p ++ rawMessage
      | none => rawMessage
    (splitJsons raw).foldl
      (fun acc m =>
        match jsonLoads m with
        | some j => (acc.1, acc.2 ++ [j])
        | none => (some m, acc.2))
      (none, [])

/-- The framer run over a whole stream of raw chunks in arrival order,
threading the residual exactly as the repeated `get_messages` calls do,
and concatenating the decoded message lists. -/
def processChunks (chunks : List String) : Option String × List Json :=
  chunks.foldl
    (fun acc raw =>
      let step := processChunk acc.1 raw
      (step.1, acc.2 ++ step.2))
    (none, [])

/-- All messages the consumer receives, over the whole chunk stream. -/
def decodedMessages (chunks : List String) : List Json :=
  (processChunks chunks).2

/-- Three adjacent well-formed JSON objects, as one received chunk. -/
def chunkABC : String :=
  "\x7b\"a\":1\x7d\x7b\"b\":2\x7d\x7b\"c\":3\x7d"

def objA : Json := .obj [("a", .num 1)]
def objB : Json := .obj [("b", .num 2)]
def objC : Json := .obj [("c", .num 3)]

/-! ### Communication worker loop and send paths
(`ezcoach/communication.py`) -/

/-- `json.dumps(\x7b'type': 'disconnected'\x7d)` (communication.py line
48), with `json.dumps`'s default item separators. -/
def disconnectedMessageJson : String :=
  "\x7b\"type\": \"disconnected\"\x7d"

/-- The outcome of one `connection.recv()` call: a received string, or
the `Disconnected` error (`ezcoach/exception.py`). -/
inductive RecvResult where
  | msg (s : String)
  | disconnected
deriving DecidableEq, Repr

/-- The state shared by `BaseCommunication` and the `Communicator`
subclass that the worker loop reads and writes: the `_connected` and
`_running` flags and the `_messages` queue (modelled by its list of
queued raw strings).  `recvCalls` counts the `connection.recv()`
invocations, to express that no further receive attempt happens. -/
structure CommState where
  connected : Bool
  running : Bool
  queue : List String
  recvCalls : Nat
deriving DecidableEq, Repr

/-- The communicator right after a successful `connect()`. -/
def CommState.initial : CommState :=
  { connected := true, running := true, queue := [], recvCalls := 0 }

/-- The worker loop `_run` of `BaseCommunication` (communication.py lines
88-94) with `Communicator.update` inlined (lines 119-135):
while `_running`, call `recv`; on a string, enqueue it; on `Disconnected`,
`Communicator._report_disconnected` clears `_connected` and enqueues the
synthesized disconnected message (lines 283-285), then `update` clears
`_running`.  The input list is the sequence of outcomes the connection
would yield; the loop stops consuming it once `_running` is false.
(When `_running` holds but `_connected` does not, the real loop spins
without receiving; that configuration is unreachable from
`CommState.initial` because the only transition clearing `_connected`
also clears `_running`.) -/
def runWorker : CommState → List RecvResult → CommState
  | st, [] => st
  | st, r :: rest =>
    if st.running ∧ st.connected then
      let st := { st with recvCalls := st.recvCalls + 1 }
      match r with
      | .msg m => runWorker { st with queue := st.queue ++ [m] } rest
      | .disconnected =>
        runWorker
          { st with connected := false, running := false,
                    queue := st.queue ++ [disconnectedMessageJson] } rest
    else st

/-- The sending half of the `Communicator`: the `_connected` flag and the
strings handed to `connection.send`, in order. -/
structure SendState where
  connected : Bool
  written : List Json
deriving Repr

/-- `BaseCommunication.send` (communication.py lines 137-146):
`_assert_connected` fails with `Connection not established.` when not
connected; otherwise the JSON-encoded message is written. -/
def Communicator.send (st : SendState) (message : Json) :
    Except PyErr SendState :=
  if st.connected then .ok { st with written := st.written ++ [message] }
  else .error .assertionError

/-- `Communicator.connect` (communication.py lines 248-251):
`super().connect()` first sets `_connected`, then the connect message is
sent through `send`. -/
def Communicator.connect (st : SendState) : Except PyErr SendState :=
  Communicator.send { st with connected := true }
    (.obj [("type", .str "connect")])

/-- `Communicator.send_start` (communication.py lines 253-264). -/
def Communicator.sendStart (st : SendState) (players : Rat)
    (options : Json) : Except PyErr SendState :=
  Communicator.send st
    (.obj [("type", .str "start"), ("players", .num players),
           ("options", options)])

/-- `Communicator.send_actions` (communication.py lines 273-281). -/
def Communicator.sendActions (st : SendState) (actions : List Json) :
    Except PyErr SendState :=
  Communicator.send st
    (.obj [("type", .str "action"), ("actions", .arr actions)])

/-- `Communicator.send_stop` (communication.py lines 266-271): the stop
message is written with `self._connection.send(json.dumps(...))`
directly, not through `send`, so `_assert_connected` never runs. -/
def Communicator.sendStop (st : SendState) : Except PyErr SendState :=
  .ok { st with written := st.written ++ [.obj [("type", .str "stop")]] }

/-! ### Schema serialization (`ezcoach/range.py`, `ezcoach/value.py`)

The registered value classes and their stored fields.  `IntList`,
`FloatList` and `BoolList` store the same `_types`/`_ranges`/
`_description` triple as `TypedList` (via `_SingleTypeList.__init__`);
`BoolList` additionally derives its ranges as `size` copies of
`BoolRange.instance()`.  Ranges parsed from JSON are never `None`, so
the optional-range corner of `contains` is not modelled. -/

inductive DType where
  | uint8
  | npFloat
deriving DecidableEq, Repr

inductive ValueDef where
  | typedList (types : List TypeTag) (ranges : List RangeDef)
      (descr : Option String)
  | intList (ranges : List RangeDef) (descr : Option String)
  | floatList (ranges : List RangeDef) (descr : Option String)
  | boolList (size : Nat) (descr : Option String)
  | intValue (range : RangeDef) (descr : Option String)
  | floatValue (range : RangeDef) (descr : Option String)
  | boolValue (descr : Option String)
  | pixelList (width height channels : Rat) (range : RangeDef)
      (dataType : DType) (descr : Option String)
deriving DecidableEq, Repr

/-- `Range.to_json`, `UnboundRange.to_json`, `BoolRange.to_json`
(range.py lines 131-139, 190-191, 238-239). -/
def rangeToJson : RangeDef → Json
  | .plain r =>
    .obj [("type", .str "Range"), ("min", .num r.min), ("max", .num r.max)]
  | .unbound => .obj [("type", .str "UnboundRange")]
  | .boolRange => .obj [("type", .str "BoolRange")]

/-- The module-level `range.from_json` (range.py lines 245-258) combined
with the per-class `from_json` methods it dispatches to.  The `BoolRange`
branch returns `cls.instance()`, which constructs an `UnboundRange`
(range.py line 212). -/
def rangeFromJson (json : Json) : Except PyErr RangeDef := do
  let t ← json.getItem "type"
  match t with
  | .str "Range" => do
    let mn ← json.getItem "min"
    let mx ← json.getItem "max"
    match mn, mx with
    | .num a, .num b => pure (.plain (mkRange a b))
    | _, _ => .error .typeError
  | .str "UnboundRange" => pure .unbound
  | .str "BoolRange" => pure boolRangeInstance
  | .str s => .error (.valueError s)
  | _ => .error (.valueError "type not recognised")

/-- `None` descriptions serialize to JSON `null`. -/
def descrToJson : Option String → Json
  | none => .null
  | some s => .str s

def descrFromJson : Json → Except PyErr (Option String)
  | .null => pure none
  | .str s => pure (some s)
  | _ => .error .typeError

/-- `TypedList._get_types_strings` (value.py lines 215-223). -/
def tagToStr : TypeTag → String
  | .int => "int"
  | .float => "float"
  | .bool => "bool"

/-- `TypedList.supported_types[t]` (value.py line 140): `KeyError` for an
unknown type name. -/
def strToTag (s : String) : Except PyErr TypeTag :=
  if s = "int" then pure .int
  else if s = "float" then pure .float
  else if s = "bool" then pure .bool
  else .error (.keyError s)

/-- `TypedList.to_json` (value.py lines 208-213), shared by `IntList`,
`FloatList` and `BoolList`: `BoolList`'s own `to_json` is commented out
(value.py lines 388-391). -/
def typedListToJson (clsName : String) (types : List TypeTag)
    (ranges : List RangeDef) (descr : Option String) : Json :=
  .obj [("type", .str clsName),
        ("types", .arr (types.map (fun t => .str (tagToStr t)))),
        ("ranges", .arr (ranges.map rangeToJson)),
        ("description", descrToJson descr)]

/-- `to_json` of every registered value class.  `PixelList.to_json`
(value.py lines 651-658) stores the raw `Range` object under `range`. -/
def valueToJson : ValueDef → Json
  | .typedList types ranges d => typedListToJson "TypedList" types ranges d
  | .intList ranges d =>
    typedListToJson "IntList" (ranges.map fun _ => .int) ranges d
  | .floatList ranges d =>
    typedListToJson "FloatList" (ranges.map fun _ => .float) ranges d
  | .boolList size d =>
    typedListToJson "BoolList" (List.replicate size .bool)
      (List.replicate size boolRangeInstance) d
  | .intValue r d =>
    .obj [("type", .str "IntValue"), ("range", rangeToJson r),
          ("description", descrToJson d)]
  | .floatValue r d =>
    .obj [("type", .str "FloatValue"), ("range", rangeToJson r),
          ("description", descrToJson d)]
  | .boolValue d =>
    .obj [("type", .str "BoolValue"),
          ("range", rangeToJson boolRangeInstance),
          ("description", descrToJson d)]
  | .pixelList w h c r _ d =>
    .obj [("type", .str "PixelList"), ("width", .num w), ("height", .num h),
          ("channels", .num c), ("description", descrToJson d),
          ("range", .pyRange r)]

def typesFromJson : Json → Except PyErr (List TypeTag)
  | .arr xs =>
    xs.mapM fun x =>
      match x with
      | .str s => strToTag s
      | _ => .error .typeError
  | _ => .error .typeError

def rangesFromJson : Json → Except PyErr (List RangeDef)
  | .arr xs => xs.mapM rangeFromJson
  | _ => .error .typeError

/-- The module-level `value.from_json` (value.py lines 661-674) combined
with the `from_json` classmethod of each registered class, in the shapes
each constructor stores.  `BoolList.from_json` (value.py line 376) reads
`json['size']`; `PixelList.from_json` (value.py lines 569-595) consults
`channel_range` before falling back to `range.from_json(json['range'])`. -/
def valueFromJson (json : Json) : Except PyErr ValueDef := do
  let t ← json.getItem "type"
  match t with
  | .str "TypedList" => do
    let types ← typesFromJson (← json.getItem "types")
    let ranges ← rangesFromJson (← json.getItem "ranges")
    let d ← descrFromJson (← json.getItem "description")
    if types.length = ranges.length then pure (.typedList types ranges d)
    else .error .assertionError
  | .str "IntList" => do
    let ranges ← rangesFromJson (← json.getItem "ranges")
    let d ← descrFromJson (← json.getItem "description")
    pure (.intList ranges d)
  | .str "FloatList" => do
    let ranges ← rangesFromJson (← json.getItem "ranges")
    let d ← descrFromJson (← json.getItem "description")
    pure (.floatList ranges d)
  | .str "BoolList" => do
    let sz ← json.getItem "size"
    let d ← descrFromJson (← json.getItem "description")
    match sz with
    | .num q =>
      if q.den = 1 ∧ 0 ≤ q.num then pure (.boolList q.num.toNat d)
      else .error .typeError
    | _ => .error .typeError
  | .str "IntValue" => do
    let r ← rangeFromJson (← json.getItem "range")
    let d ← descrFromJson (← json.getItem "description")
    pure (.intValue r d)
  | .str "FloatValue" => do
    let r ← rangeFromJson (← json.getItem "range")
    let d ← descrFromJson (← json.getItem "description")
    pure (.floatValue r d)
  | .str "BoolValue" => do
    let d ← descrFromJson (← json.getItem "description")
    pure (.boolValue d)
  | .str "PixelList" => do
    let w ← json.getItem "width"
    let h ← json.getItem "height"
    let c ← json.getItem "channels"
    let d ← descrFromJson (← json.getItem "description")
    match w, h, c with
    | .num wq, .num hq, .num cq => do
      let rd ←
        match json.getItem "channel_range" with
        | .ok v =>
          match v with
          | .null => do
            let r ← rangeFromJson (← json.getItem "range")
            pure (r, DType.npFloat)
          | .str "bit8" => pure (.plain (mkRange 0 255), DType.uint8)
          | .str "normalized" => pure (.plain (mkRange 0 1), DType.npFloat)
          | .str s => .error (.keyError s)
          | _ => .error .typeError
        | .error _ => do
          let r ← rangeFromJson (← json.getItem "range")
          pure (r, DType.npFloat)
      pure (.pixelList wq hq cq rd.1 rd.2 d)
    | _, _, _ => .error .typeError
  | .str s => .error (.valueError s)
  | _ => .error (.valueError "type not recognised")

/-! ### Value containment (`ezcoach/value.py`) -/

/-- `_SingleValue.contains` (value.py lines 412-416).  The manifest
schemas parsed from JSON always carry a range, so the `_range is None`
short-circuit is not modelled. -/
def SingleValue.contains (elementType : TypeTag) (range : RangeDef)
    (value : PyData) : Bool :=
  if ¬ isInstanceOf value elementType then false
  else range.containsVal value

/-- `TypedList.contains` (value.py lines 168-178): only a list is both
`Iterable` and `Sized` among the modelled runtime values; `zip` stops at
the shorter operand as in Python. -/
def TypedList.containsList (types : List TypeTag) (ranges : List RangeDef)
    (value : PyData) : Bool :=
  match value with
  | .list vs =>
    if vs.length ≠ ranges.length then false
    else if ¬ (vs.zip types).all (fun p => isInstanceOf p.1 p.2) then false
    else (ranges.zip vs).all fun p => p.1.containsVal p.2
  | _ => false

/-! ### `RemoteEnvironment.act` (`ezcoach/enviroment.py`) -/

mutual

/-- Python runtime values as the JSON they serialize to inside
`send_actions`. -/
def pyDataToJson : PyData → Json
  | .bool b => .bool b
  | .int n => .num (n : Rat)
  | .float q => .num q
  | .list xs => .arr (pyDataListToJson xs)

def pyDataListToJson : List PyData → List Json
  | [] => []
  | x :: xs => pyDataToJson x :: pyDataListToJson xs

end

def optActionToJson : Option PyData → Json
  | none => .null
  | some v => pyDataToJson v

/-- `BaseEnvironment._check_actions` (enviroment.py lines 181-189):
`all(contains(action) or action is None for action in actions)`,
parametrised by the manifest's action-schema containment test. -/
def checkActions (contains : PyData → Bool)
    (actions : List (Option PyData)) : Bool :=
  actions.all fun a =>
    match a with
    | some v => contains v
    | none => true

/-- The part of the environment state `act` touches: the `_states_ready`
flag and the messages handed to the communicator, in order. -/
structure EnvAct where
  statesReady : Bool
  sent : List Json
deriving Repr

/-- `RemoteEnvironment.act` (enviroment.py lines 277-285) up to the
blocking drain: clear `_states_ready`, run `_check_actions` (raising
`ValueError` on failure), then `send_actions`.  The error path returns
before anything is written. -/
def RemoteEnvironment.act (contains : PyData → Bool) (st : EnvAct)
    (actions : List (Option PyData)) : Except PyErr EnvAct :=
  let st := { st with statesReady := false }
  if checkActions contains actions then
    .ok { st with
          sent := st.sent ++
            [.obj [("type", .str "action"),
                   ("actions", .arr (actions.map optActionToJson))]] }
  else .error (.valueError "actions not compatible with environment")

/-- The validation predicate exactly as the claim words it (for the
refinement comparison): an action is admissible when it satisfies schema
containment, or when it is the `None` sentinel for an agent whose
running flag has already cleared. -/
def claimActionsValid (contains : PyData → Bool) (running : List Bool)
    (actions : List (Option PyData)) : Bool :=
  (actions.zip running).all fun p =>
    match p.1 with
    | some v => contains v
    | none => !p.2

/-! ### `RemoteEnvironment._parse_messages` (`ezcoach/enviroment.py`) -/

def IncomingMessageTypes.MANIFEST : String := "manifest"
def IncomingMessageTypes.STATE : String := "state"
def IncomingMessageTypes.STOPPED : String := "stopped"
def IncomingMessageTypes.DISCONNECTED : String := "disconnected"

/-- The flags of `RemoteEnvironment` the message handlers write. -/
structure REnvState where
  connected : Bool
  running : Bool
  statesReady : Bool
deriving DecidableEq, Repr

inductive ParseOutcome where
  | ok (st : REnvState)
  | raisedDisconnected (st : REnvState)
  | raisedAttributeError (missing : String)
deriving DecidableEq, Repr

/-- The `getattr(self, '_parse_' + message_type)` dispatch (enviroment.py
line 315) for a non-state message: `_parse_manifest` (lines 325-342)
sets the manifest and `_connected`; `_parse_disconnected` (lines
344-352) clears `_connected` and raises `Disconnected`; any other type
has no `_parse_` method on the class, so `getattr` raises
`AttributeError`.  (`_parse_states` exists but is reached only through
the state special case.) -/
def dispatchMessage (st : REnvState) (msgType : String) : ParseOutcome :=
  if msgType = IncomingMessageTypes.MANIFEST then
    .ok { st with connected := true }
  else if msgType = IncomingMessageTypes.DISCONNECTED then
    .raisedDisconnected { st with connected := false }
  else
    .raisedAttributeError ("_parse_" ++ msgType)

/-- The loop of `_parse_messages` (enviroment.py lines 299-323) over the
type tags of a received batch: state messages are remembered and parsed
after the loop (`_parse_states`, lines 354-368, sets `_states_ready`;
its `self._running = True` line is commented out), other messages
dispatch immediately and an exception aborts the call. -/
def parseMessagesAux (st : REnvState) (sawState : Bool) :
    List String → ParseOutcome
  | [] => if sawState then .ok { st with statesReady := true } else .ok st
  | t :: ts =>
    if t = IncomingMessageTypes.STATE then parseMessagesAux st true ts
    else
      match dispatchMessage st t with
      | .ok st' => parseMessagesAux st' sawState ts
      | e => e

def parseMessages (st : REnvState) (msgTypes : List String) : ParseOutcome :=
  parseMessagesAux st false msgTypes

/-! ### The distributor layer (`ezcoach/distributor.py`)

Agents are modelled by their `act` function; wall-clock fields
(`start_time`, `episode_time`) of `_AgentRunningState` are outside the
embedding.  Rewards are `Rat`. -/

/-- `adapt_object` (adapter.py lines 10-28): `None` adapters leave the
object unchanged; an iterable of adapters is applied in order. -/
def adaptObject {β : Type} (adapters : Option (List (β → β))) (obj : β) : β :=
  match adapters with
  | none => obj
  | some fs => fs.foldl (fun o f => f o) obj

/-- `_AgentRunningState` (distributor.py lines 18-64), without the
wall-clock fields. -/
structure AgentRunningState (σ α : Type) where
  running : Bool
  state : Option σ
  action : Option α
  accumulatedReward : Option Rat
  numActions : Nat
deriving Repr

/-- `_AgentRunningState.__init__`. -/
def AgentRunningState.init {σ α : Type} : AgentRunningState σ α :=
  { running := true, state := none, action := none,
    accumulatedReward := none, numActions := 0 }

/-- `_AgentRunningState.update` (distributor.py lines 43-56). -/
def AgentRunningState.update {σ α : Type} (ag : AgentRunningState σ α)
    (state : σ) (action : Option α) (accumulatedReward : Rat) :
    AgentRunningState σ α :=
  { ag with
    state := some state
    action := action
    accumulatedReward := some accumulatedReward
    numActions := ag.numActions + (if action.isSome then 1 else 0) }

/-- `_AgentRunningState.ended` (distributor.py lines 58-64), without the
elapsed-time computation. -/
def AgentRunningState.ended {σ α : Type} (ag : AgentRunningState σ α) :
    AgentRunningState σ α :=
  { ag with running := false }

/-- The per-agent `(state, accumulated_reward, running)` row of a state
batch (`StateInfo`, enviroment.py line 11). -/
structure StateInfoM (σ : Type) where
  state : σ
  accumulatedReward : Rat
  running : Bool
deriving Repr

/-- One `receive_reward` invocation, with the arguments passed
(distributor.py lines 214-217). -/
structure RewardCall (σ α : Type) where
  previousState : σ
  previousAction : Option α
  reward : Rat
  accumulatedReward : Rat
  nextState : σ
deriving Repr

/-- What one `_react_to_state` call produces: the returned action, the
updated `_AgentRunningState`, and the `receive_reward` calls fired. -/
structure ReactResult (σ α : Type) where
  action : Option α
  agentState : AgentRunningState σ α
  rewardCalls : List (RewardCall σ α)
deriving Repr

/-- `BaseDistributor._react_to_state` (distributor.py lines 194-235).
The early return fires when the agent's running flag is already false;
past it, the inner `if agent_state.running:` guard is always true.
`agent_state.state is not None` guarantees `accumulated_reward` was set
by the same `update` call, so the `getD 0` default is never read. -/
def reactToState {σ α : Type} (training : Bool) (act : σ → α)
    (stateAdapters : Option (List (σ → σ)))
    (rewardAdapters : Option (List (Rat → Rat)))
    (actionAdapters : Option (List (α → α)))
    (si : StateInfoM σ) (ag : AgentRunningState σ α) : ReactResult σ α :=
  if ¬ ag.running then ⟨none, ag, []⟩
  else
    let state := adaptObject stateAdapters si.state
    let accumulatedReward := adaptObject rewardAdapters si.accumulatedReward
    let rewardCalls :=
      if training ∧ ag.state.isSome then
        [{ previousState := ag.state.getD state
           previousAction := ag.action
           reward := accumulatedReward - ag.accumulatedReward.getD 0
           accumulatedReward := accumulatedReward
           nextState := state }]
      else []
    let action := if si.running then some (act state) else none
    let ag' := ag.update state action accumulatedReward
    let ag' := if ¬ si.running then ag'.ended else ag'
    { action := action.map (adaptObject actionAdapters)
      agentState := ag'
      rewardCalls := rewardCalls }

/-- A training run of `SingleAgentDistributor.learn_from_states` over a
tick sequence with no adapters configured, collecting the delivered
reward deltas in order. -/
def runTicksSingle {σ α : Type} (act : σ → α)
    (ticks : List (StateInfoM σ)) : AgentRunningState σ α × List Rat :=
  ticks.foldl
    (fun acc si =>
      let r := reactToState true act none none none si acc.1
      (r.agentState, acc.2 ++ r.rewardCalls.map (·.reward)))
    (.init, [])

/-- What one `AgentListDistributor._react_to_states` call produces
(distributor.py lines 397-425): the per-agent `selected_actions` list,
the returned value (`None` once every agent has stopped), the updated
agent states, the `episode_ended` calls fired (with their arguments, in
ordinal order), and whether the metrics row was flushed to the
recorder. -/
structure MultiTickResult (σ α : Type) where
  selectedActions : List (Option α)
  returned : Option (List (Option α))
  agents : List (AgentRunningState σ α)
  episodeEndedCalls : List (Option σ × Option Rat)
  flushed : Bool
deriving Repr

/-- `AgentListDistributor._react_to_states` (distributor.py lines
397-425) with no adapters configured.  The three zipped lists have the
common length `N` in every run (`select_players_num` enforces it). -/
def reactToStates {σ α : Type} (training : Bool) (acts : List (σ → α))
    (sis : List (StateInfoM σ)) (ags : List (AgentRunningState σ α)) :
    MultiTickResult σ α :=
  let results := (acts.zip (sis.zip ags)).map
    (fun p => reactToState training p.1 none none none p.2.1 p.2.2)
  let selectedActions := results.map (·.action)
  let newAgents := results.map (·.agentState)
  if newAgents.all (fun ag => !ag.running) then
    { selectedActions := selectedActions
      returned := none
      agents := newAgents
      episodeEndedCalls :=
        if training then
          newAgents.map (fun ag => (ag.state, ag.accumulatedReward))
        else []
      flushed := true }
  else
    { selectedActions := selectedActions
      returned := some selectedActions
      agents := newAgents
      episodeEndedCalls := []
      flushed := false }

/-- The episode driver's inner loop (core.py lines 183-190) specialised
to a training run with an `AgentListDistributor`: process the incoming
state batches while `is_episode_running()` — that is, while any agent's
running flag holds (distributor.py lines 394-395) — and record each
tick's result. -/
def runEpisode {σ α : Type} (acts : List (σ → α)) :
    List (AgentRunningState σ α) → List (List (StateInfoM σ)) →
    List (MultiTickResult σ α)
  | _, [] => []
  | ags, t :: ts =>
    if ags.any (·.running) then
      let r := reactToStates true acts t ags
      r :: runEpisode acts r.agents ts
    else []

/-- `SingleAgentDistributor.select_players_num` (distributor.py lines
280-287): asserts `selected_players == 1` when a count is given,
defaults to 1 otherwise. -/
def SingleAgentDistributor.selectPlayersNum (selectedPlayers : Option Int) :
    Except PyErr Int :=
  match selectedPlayers with
  | some k => if k = 1 then .ok k else .error .assertionError
  | none => .ok 1

/-- `AgentListDistributor.select_players_num` (distributor.py lines
373-382): asserts `selected_players == self._num_agents` when a count is
given, defaults to the number of agents otherwise. -/
def AgentListDistributor.selectPlayersNum (numAgents : Nat)
    (selectedPlayers : Option Int) : Except PyErr Int :=
  match selectedPlayers with
  | some k => if k = (numAgents : Int) then .ok k else .error .assertionError
  | none => .ok (numAgents : Int)

/-! ## Helper lemmas -/

/-- A worker whose `_running` flag is clear consumes nothing. -/
theorem runWorker_of_not_running (st : CommState) (h : st.running = false) :
    ∀ src, runWorker st src = st := by
  intro src
  cases src with
  | nil => rfl
  | cons r rest => simp [runWorker, h]

/-- Behaviour of the worker loop on a stream of successful receives
followed by a `Disconnected` error, from any live state. -/
theorem runWorker_disconnect (msgs : List String) :
    ∀ (st : CommState), st.running = true → st.connected = true →
    ∀ rest,
    runWorker st (msgs.map RecvResult.msg ++ RecvResult.disconnected :: rest) =
      { connected := false, running := false,
        queue := st.queue ++ msgs ++ [disconnectedMessageJson],
        recvCalls := st.recvCalls + (msgs.length + 1) } := by
  induction msgs with
  | nil =>
    intro st hr hc rest
    simp only [List.map_nil, List.nil_append, runWorker, hr, hc, and_self, if_true]
    rw [runWorker_of_not_running _ rfl]
    simp
  | cons m ms ih =>
    intro st hr hc rest
    simp only [List.map_cons, List.cons_append, runWorker, hr, hc, and_self,
      if_true, List.append_eq]
    rw [ih { connected := true, running := true, queue := st.queue ++ [m],
             recvCalls := st.recvCalls + 1 } rfl rfl rest]
    simp [CommState.mk.injEq]
    omega

/-- Every successful pass of `_parse_messages` leaves `_running`
unchanged: no handler writes it. -/
theorem parseMessagesAux_preserves_running :
    ∀ (msgTypes : List String) (st : REnvState) (sawState : Bool)
      (st' : REnvState),
    parseMessagesAux st sawState msgTypes = .ok st' → st'.running = st.running := by
  intro msgTypes
  induction msgTypes with
  | nil =>
    intro st sawState st' h
    cases sawState <;> simp [parseMessagesAux] at h <;> rw [← h]
  | cons t ts ih =>
    intro st sawState st' h
    by_cases hstate : t = IncomingMessageTypes.STATE
    · rw [parseMessagesAux, if_pos hstate] at h
      exact ih st true st' h
    · rw [parseMessagesAux, if_neg hstate] at h
      by_cases hman : t = IncomingMessageTypes.MANIFEST
      · rw [dispatchMessage, if_pos hman] at h
        exact ih { st with connected := true } sawState st' h
      · by_cases hdis : t = IncomingMessageTypes.DISCONNECTED
        · rw [dispatchMessage, if_neg hman, if_pos hdis] at h
          simp at h
        · rw [dispatchMessage, if_neg hman, if_neg hdis] at h
          simp at h

/-- The metrics flush of `AgentListDistributor._react_to_states` fires
exactly when every (updated) agent running flag is false. -/
theorem reactToStates_flushed_eq {σ α : Type} (training : Bool)
    (acts : List (σ → α)) (sis : List (StateInfoM σ))
    (ags : List (AgentRunningState σ α)) :
    (reactToStates training acts sis ags).flushed =
      (reactToStates training acts sis ags).agents.all (fun ag => !ag.running) := by
  cases training <;>
    (simp only [reactToStates]
     split
     all_goals simp_all
     all_goals tauto)

/-! ## Claims -/

/-- C1: the framer round-trip claim fails on the code.  The chunk
`chunkABC` is the delimiter-free concatenation of three well-formed JSON
objects; fed as one read, the framer decodes only the first and third.
`split_jsons` wraps `jsons[1:-2]` instead of `jsons[1:-1]`
(json_utils.py line 20), so the second-to-last fragment of any split
with at least three fragments is dropped — contradicting the function's
own docstring, which promises a string for each JSON object. -/
theorem C1_framer_drops_middle_object :
    (jsonLoads "\x7b\"a\":1\x7d" = some objA ∧
     jsonLoads "\x7b\"b\":2\x7d" = some objB ∧
     jsonLoads "\x7b\"c\":3\x7d" = some objC) ∧
    "\x7b\"a\":1\x7d" ++ "\x7b\"b\":2\x7d" ++ "\x7b\"c\":3\x7d" = chunkABC ∧
    decodedMessages [chunkABC] = [objA, objC] ∧
    decodedMessages [chunkABC] ≠ [objA, objB, objC] := by
  refine ⟨⟨rfl, rfl, rfl⟩, rfl, rfl, fun h => ?_⟩
  have h2 : (decodedMessages [chunkABC]).length = 3 := by
    rw [h]; rfl
  exact absurd h2 (by decide)

/-- C2: the schema JSON round-trip claim fails on the code for three
registered variants.  `BoolRange` deserializes to an `UnboundRange`
object because `BoolRange.instance()` constructs `UnboundRange()`
(range.py line 212), contradicting its own docstring; `BoolList`'s
inherited `to_json` writes no `size` key, so `BoolList.from_json`
raises `KeyError('size')`; `PixelList.to_json` stores the raw `Range`
object, which `range.from_json` then subscripts, raising a `TypeError`.
The last conjunct shows the `BoolRange` defect also corrupting a
`TypedList` round-trip in place. -/
theorem C2_schema_roundtrip_failures :
    rangeFromJson (rangeToJson .boolRange) = .ok .unbound ∧
    (RangeDef.unbound ≠ .boolRange) ∧
    valueFromJson (valueToJson (.boolList 1 none)) =
      .error (.keyError "size") ∧
    valueFromJson (valueToJson
        (.pixelList 8 8 3 (.plain (mkRange 0 255)) .uint8 none)) =
      .error .typeError ∧
    valueFromJson (valueToJson
        (.typedList [.int, .bool] [.plain (mkRange 1 5), .boolRange] none)) =
      .ok (.typedList [.int, .bool] [.plain (mkRange 1 5), .unbound] none) :=
  ⟨rfl, by decide, rfl, rfl, rfl⟩

/-- C5 counterexample: `Range(5, 1)` does not behave like
`Range(min(5,1), max(5,1)) = Range(1, 5)` under normalization:
`_range` and `_half_range` keep the raw operands' order (range.py lines
74-75) and are negative when the operands arrive swapped, so
`Range(5,1).normalize(3, zero_centered=False)` is `-1/2` while
`Range(1,5)` gives `1/2`. -/
theorem C5_normalize_depends_on_operand_order :
    RangeObj.normalize (mkRange 5 1) 3 false = -(1/2 : Rat) ∧
    RangeObj.normalize (mkRange (Min.min (5 : Rat) 1) (Max.max (5 : Rat) 1))
      3 false = (1/2 : Rat) ∧
    RangeObj.normalize (mkRange 5 1) 3 false ≠
      RangeObj.normalize (mkRange (Min.min (5 : Rat) 1) (Max.max (5 : Rat) 1))
        3 false :=
  ⟨by norm_num [RangeObj.normalize, mkRange, min_def, max_def],
   by norm_num [RangeObj.normalize, mkRange, min_def, max_def],
   by norm_num [RangeObj.normalize, mkRange, min_def, max_def]⟩

/-- C5 (amended): for every pair of numeric operands, `Range(a, b)`
satisfies the invariant `min ≤ max`, and the containment test and JSON
serialization are operand-order independent — they agree with
`Range(min(a,b), max(a,b))`; normalization is excluded, since `_range`
and `_half_range` retain the sign of `max - min` over the raw
operands. -/
theorem C5_range_reorder_amended (a b v : Rat) :
    (mkRange a b).min ≤ (mkRange a b).max ∧
    (mkRange a b).containsNum v =
      (mkRange (Min.min a b) (Max.max a b)).containsNum v ∧
    rangeToJson (.plain (mkRange a b)) =
      rangeToJson (.plain (mkRange (Min.min a b) (Max.max a b))) := by
  have hmin : (mkRange (Min.min a b) (Max.max a b)).min = (mkRange a b).min := by
    show Min.min (Min.min a b) (Max.max a b) = Min.min a b
    exact min_eq_left min_le_max
  have hmax : (mkRange (Min.min a b) (Max.max a b)).max = (mkRange a b).max := by
    show Max.max (Min.min a b) (Max.max a b) = Max.max a b
    exact max_eq_right min_le_max
  refine ⟨min_le_max, ?_, ?_⟩
  · simp [RangeObj.containsNum, hmin, hmax]
  · simp [rangeToJson, hmin, hmax]

/-- C7: while a receive is pending, a `Disconnected` error from the
transport makes the worker enqueue exactly one synthesized disconnected
message after the already-received ones (so a consumer blocked in
`get_messages` is released), stop, and never call `recv` again: the
receive count stays at one call per delivered message plus the failing
one, whatever input would have followed. -/
theorem C7_disconnect_synthesis (msgs : List String) (rest : List RecvResult) :
    runWorker CommState.initial
        (msgs.map RecvResult.msg ++ RecvResult.disconnected :: rest) =
      { connected := false, running := false,
        queue := msgs ++ [disconnectedMessageJson],
        recvCalls := msgs.length + 1 } := by
  rw [runWorker_disconnect msgs CommState.initial rfl rfl rest]
  simp [CommState.initial]

/-- C8 counterexample: `send_stop` writes the stop message through
`self._connection.send` directly (communication.py line 271), bypassing
`send` and its `_assert_connected`; from a non-connected communicator
the stop message is still written and no "not connected" error is
raised, contrary to the claim. -/
theorem C8_send_stop_bypasses_connected_check :
    Communicator.sendStop { connected := false, written := [] } =
      .ok { connected := false, written := [.obj [("type", .str "stop")]] } :=
  rfl

/-- C8 (amended): `start(players, options)` and `action(actions)` deliver
through `send`, which fails with the "not connected" assertion and writes
nothing when the communicator is not connected, and writes exactly the
built message when it is; `connect` first marks the communicator
connected and then sends its message; `stop()` writes the stop message
directly to the connection with no connected check. -/
theorem C8_send_requires_connection_amended (st : SendState) (players : Rat)
    (options : Json) (actions : List Json) (message : Json) :
    (st.connected = false →
      Communicator.send st message = .error .assertionError ∧
      Communicator.sendStart st players options = .error .assertionError ∧
      Communicator.sendActions st actions = .error .assertionError) ∧
    (st.connected = true →
      Communicator.sendStart st players options =
        .ok { st with written := st.written ++
          [.obj [("type", .str "start"), ("players", .num players),
                 ("options", options)]] } ∧
      Communicator.sendActions st actions =
        .ok { st with written := st.written ++
          [.obj [("type", .str "action"), ("actions", .arr actions)]] }) ∧
    Communicator.connect st =
      .ok { connected := true,
            written := st.written ++ [.obj [("type", .str "connect")]] } ∧
    Communicator.sendStop st =
      .ok { st with written := st.written ++ [.obj [("type", .str "stop")]] } := by
  refine ⟨fun h => ?_, fun h => ?_, ?_, rfl⟩
  · simp [Communicator.send, Communicator.sendStart, Communicator.sendActions, h]
  · simp [Communicator.send, Communicator.sendStart, Communicator.sendActions, h]
  · simp [Communicator.connect, Communicator.send]

/-- C8 witness: the amended theorem applied to a disconnected and to a
connected communicator. -/
theorem C8_send_requires_connection_amended_witness :
    Communicator.sendStart { connected := false, written := [] } 2 .null =
      .error .assertionError ∧
    Communicator.sendActions { connected := true, written := [] } [.num 3] =
      .ok { connected := true,
            written := [.obj [("type", .str "action"),
                              ("actions", .arr [.num 3])]] } :=
  ⟨((C8_send_requires_connection_amended { connected := false, written := [] }
      2 .null [.num 3] .null).1 rfl).2.1,
   ((C8_send_requires_connection_amended { connected := true, written := [] }
      2 .null [.num 3] .null).2.1 rfl).2⟩

/-- C3: reward delta sequencing.  With no reward adapters configured, a
training tick through `_react_to_state` delivers to `receive_reward`
exactly the current accumulated reward minus the agent's previously
stored accumulated reward; on the first tick of an episode (fresh
`_AgentRunningState`, no prior state) no `receive_reward` call fires;
and the accumulated-reward sequence `[0, 1, 1, 3]` over four ticks
delivers exactly the deltas `[1, 0, 2]`. -/
theorem C3_reward_delta_sequencing :
    (∀ (σ α : Type) (act : σ → α) (si : StateInfoM σ)
        (ag : AgentRunningState σ α) (prevState : σ) (prevAcc : Rat),
        ag.running = true → ag.state = some prevState →
        ag.accumulatedReward = some prevAcc →
        (reactToState true act none none none si ag).rewardCalls =
          [{ previousState := prevState, previousAction := ag.action,
             reward := si.accumulatedReward - prevAcc,
             accumulatedReward := si.accumulatedReward,
             nextState := si.state }]) ∧
    (∀ (σ α : Type) (act : σ → α) (si : StateInfoM σ),
        (reactToState true act none none none si
          (AgentRunningState.init (σ := σ) (α := α))).rewardCalls = []) ∧
    (runTicksSingle (σ := Int) (α := Int) (fun s => s)
        [⟨10, 0, true⟩, ⟨20, 1, true⟩, ⟨30, 1, true⟩, ⟨40, 3, true⟩]).2 =
      [1, 0, 2] := by
  refine ⟨?_, ?_, ?_⟩
  · intro σ α act si ag prevState prevAcc hrun hstate hacc
    simp [reactToState, adaptObject, hrun, hstate, hacc]
  · intro σ α act si
    simp [reactToState, adaptObject, AgentRunningState.init]
  · norm_num [runTicksSingle, reactToState, adaptObject, AgentRunningState.init,
      AgentRunningState.update, AgentRunningState.ended]

/-- C3 witness: the delta rule applied at a concrete second tick
(previous accumulated reward 0, current 1). -/
theorem C3_reward_delta_sequencing_witness :
    (reactToState true (fun s : Int => s) none none none
        ⟨20, 1, true⟩
        { running := true, state := some 10, action := some 10,
          accumulatedReward := some 0, numActions := 1 }).rewardCalls =
      [{ previousState := 10, previousAction := some 10,
         reward := (1 : Rat) - 0, accumulatedReward := 1, nextState := 20 }] :=
  C3_reward_delta_sequencing.1 Int Int (fun s => s) ⟨20, 1, true⟩
    { running := true, state := some 10, action := some 10,
      accumulatedReward := some 0, numActions := 1 } 10 0 rfl rfl rfl

/-- The C4 scenario's state batches: two agents; the environment clears
agent A's running flag on tick 3 and agent B's on tick 5. -/
def ticksAB : List (List (StateInfoM Int)) :=
  [[⟨11, 0, true⟩, ⟨21, 0, true⟩],
   [⟨12, 1, true⟩, ⟨22, 1, true⟩],
   [⟨13, 2, false⟩, ⟨23, 2, true⟩],
   [⟨14, 2, false⟩, ⟨24, 3, true⟩],
   [⟨15, 2, false⟩, ⟨25, 4, false⟩]]

/-- The C4 scenario's training episode, tick by tick. -/
def episodeAB : List (MultiTickResult Int Int) :=
  runEpisode [fun s => s, fun s => s]
    [AgentRunningState.init, AgentRunningState.init] ticksAB

/-- C4: episode termination timing in `AgentListDistributor`.  The
metrics flush (and, when training, the `episode_ended` calls emitted
with it) fires exactly when every agent's running flag is false after
the tick; an agent whose flag is already false is skipped — it
contributes the no-action sentinel and its state is untouched, so it
stays skipped for the rest of the episode.  In the concrete two-agent
scenario (A clears at tick 3, B at tick 5) the flush and both
`episode_ended` calls happen only on tick 5, agent A's returned action
is `None` from tick 3 on, and a sixth batch would not be processed
because `is_episode_running()` is already false. -/
theorem C4_episode_termination_timing :
    (∀ (σ α : Type) (training : Bool) (acts : List (σ → α))
        (sis : List (StateInfoM σ)) (ags : List (AgentRunningState σ α)),
        ((reactToStates training acts sis ags).flushed = true ↔
          ∀ ag ∈ (reactToStates training acts sis ags).agents,
            ag.running = false)) ∧
    (∀ (σ α : Type) (training : Bool) (act : σ → α) (si : StateInfoM σ)
        (ag : AgentRunningState σ α),
        ag.running = false →
        reactToState training act none none none si ag =
          { action := none, agentState := ag, rewardCalls := [] }) ∧
    episodeAB.map (·.flushed) = [false, false, false, false, true] ∧
    episodeAB.map (fun r => r.episodeEndedCalls.length) = [0, 0, 0, 0, 2] ∧
    episodeAB.map (fun r => r.selectedActions.getD 0 none) =
      [some 11, some 12, none, none, none] ∧
    (runEpisode [fun s => s, fun s => s]
      [AgentRunningState.init, AgentRunningState.init]
      (ticksAB ++ [[⟨16, 2, false⟩, ⟨26, 4, false⟩]])).length = 5 := by
  refine ⟨?_, ?_, rfl, rfl, rfl, rfl⟩
  · intro σ α training acts sis ags
    rw [reactToStates_flushed_eq, List.all_eq_true]
    constructor
    · intro h ag hag
      simpa using h ag hag
    · intro h ag hag
      simpa using h ag hag
  · intro σ α training act si ag h
    simp [reactToState, h]

/-- C4 witness: a concrete tick for an agent whose running flag has
already cleared — it contributes no action and its record is
untouched. -/
theorem C4_episode_termination_timing_witness :
    reactToState true (fun s : Int => s) none none none ⟨14, 2, true⟩
      { running := false, state := some 13, action := none,
        accumulatedReward := some 2, numActions := 2 } =
      { action := none,
        agentState := { running := false, state := some 13, action := none,
                        accumulatedReward := some 2, numActions := 2 },
        rewardCalls := [] } :=
  C4_episode_termination_timing.2.1 Int Int true (fun s => s) ⟨14, 2, true⟩
    { running := false, state := some 13, action := none,
      accumulatedReward := some 2, numActions := 2 } rfl

/-- C6 counterexample: against an `IntValue(Range(1, 5))` action schema,
the `None` sentinel for an agent whose running flag still holds violates
the claim's validation predicate, yet `_check_actions` accepts it —
`action is None` passes unconditionally (enviroment.py line 188) — and
the action message is sent. -/
theorem C6_none_action_sent_for_running_agent :
    claimActionsValid (SingleValue.contains .int (.plain (mkRange 1 5)))
      [true] [none] = false ∧
    RemoteEnvironment.act (SingleValue.contains .int (.plain (mkRange 1 5)))
      { statesReady := true, sent := [] } [none] =
      .ok { statesReady := false,
            sent := [.obj [("type", .str "action"),
                           ("actions", .arr [.null])]] } :=
  ⟨rfl, rfl⟩

/-- C6 (amended): `act(actions)` validates every action against the
manifest's action schema — each action must satisfy schema containment
or be the `None` sentinel, which is accepted regardless of the agent's
finished status — and on a violation raises `ValueError` before the
action message is sent (the error path writes nothing); when validation
passes, exactly the action message is sent. -/
theorem C6_act_validation_amended (contains : PyData → Bool) (st : EnvAct)
    (actions : List (Option PyData)) :
    (checkActions contains actions = false →
      RemoteEnvironment.act contains st actions =
        .error (.valueError "actions not compatible with environment")) ∧
    (checkActions contains actions = true →
      RemoteEnvironment.act contains st actions =
        .ok { statesReady := false,
              sent := st.sent ++
                [.obj [("type", .str "action"),
                       ("actions", .arr (actions.map optActionToJson))]] }) := by
  constructor <;> intro h <;> simp [RemoteEnvironment.act, h]

/-- C6 witness: an out-of-range action is rejected with nothing sent; an
in-range action is sent. -/
theorem C6_act_validation_amended_witness :
    RemoteEnvironment.act (SingleValue.contains .int (.plain (mkRange 1 5)))
      { statesReady := true, sent := [] } [some (.int 7)] =
      .error (.valueError "actions not compatible with environment") ∧
    RemoteEnvironment.act (SingleValue.contains .int (.plain (mkRange 1 5)))
      { statesReady := true, sent := [] } [some (.int 3)] =
      .ok { statesReady := false,
            sent := [.obj [("type", .str "action"),
                           ("actions", .arr [.num ((3 : Int) : Rat)])]] } :=
  ⟨(C6_act_validation_amended _ _ _).1 (by rfl),
   (C6_act_validation_amended _ _ _).2 (by rfl)⟩

/-- C9: player-count enforcement.  `SingleAgentDistributor` fails the
assertion for every selected count other than 1 and returns 1 when the
count is 1 or omitted; an `AgentListDistributor` over `n` agents fails
for every selected count other than `n` and returns `n` when the count
is `n` or omitted. -/
theorem C9_player_count_enforcement (k : Int) (n : Nat) :
    (k ≠ 1 → SingleAgentDistributor.selectPlayersNum (some k) =
      .error .assertionError) ∧
    SingleAgentDistributor.selectPlayersNum (some 1) = .ok 1 ∧
    SingleAgentDistributor.selectPlayersNum none = .ok 1 ∧
    (k ≠ (n : Int) → AgentListDistributor.selectPlayersNum n (some k) =
      .error .assertionError) ∧
    AgentListDistributor.selectPlayersNum n (some (n : Int)) = .ok (n : Int) ∧
    AgentListDistributor.selectPlayersNum n none = .ok (n : Int) := by
  refine ⟨fun h => ?_, rfl, rfl, fun h => ?_, ?_, rfl⟩
  · simp [SingleAgentDistributor.selectPlayersNum, h]
  · simp [AgentListDistributor.selectPlayersNum, h]
  · simp [AgentListDistributor.selectPlayersNum]

/-- C9 witness: selecting 3 players fails for a single-agent distributor
and for a two-agent list distributor. -/
theorem C9_player_count_enforcement_witness :
    SingleAgentDistributor.selectPlayersNum (some 3) = .error .assertionError ∧
    AgentListDistributor.selectPlayersNum 2 (some 3) = .error .assertionError :=
  ⟨(C9_player_count_enforcement 3 2).1 (by decide),
   (C9_player_count_enforcement 3 2).2.2.2.1 (by decide)⟩

/-- C10: a received message of the declared incoming type `stopped` makes
`_parse_messages` raise — the `getattr` dispatch finds no
`_parse_stopped` method — and no successful pass of `_parse_messages`
ever changes `_running`, so `stop()`'s drain loop cannot terminate by
observing a stopped message. -/
theorem C10_stopped_message_unhandled :
    (∀ st : REnvState,
      parseMessages st [IncomingMessageTypes.STOPPED] =
        .raisedAttributeError "_parse_stopped") ∧
    (∀ (st : REnvState) (msgTypes : List String) (st' : REnvState),
      parseMessages st msgTypes = .ok st' → st'.running = st.running) := by
  constructor
  · intro st
    rfl
  · intro st msgTypes st' h
    exact parseMessagesAux_preserves_running msgTypes st false st' h

/-- C10 witness: a successful manifest parse leaves `_running` exactly as
it was. -/
theorem C10_stopped_message_unhandled_witness :
    ({ connected := true, running := true, statesReady := false } :
        REnvState).running =
      ({ connected := false, running := true, statesReady := false } :
        REnvState).running :=
  C10_stopped_message_unhandled.2
    { connected := false, running := true, statesReady := false }
    [IncomingMessageTypes.MANIFEST]
    { connected := true, running := true, statesReady := false } rfl

end EZCoach
